import Mathlib

/-!
Verification of the KexiftoolManager repository (a Python facade over the
external ExifTool binary).  The Python sources under
`src/kexiftoolmanager/` are shallowly embedded here:

* strings are `List Char` (`Str`); Python `str.split`, `int(...)`,
  `datetime.datetime`, `str.upper`, `pathlib.PurePath.suffix` are modelled
  by executable Lean functions below;
* exceptions are modelled with `Except PyErr`; a Python `try/except X`
  block maps to a `match` that turns the caught constructors back into
  ordinary values and re-raises the rest;
* the external world (the ExifTool process, the filesystem, the
  `filetools.itername` collaborator and `json.loads`) is an oracle record
  `ExtEnv`; executed commands and deleted files are reported as
  `SaveEffects` data instead of real I/O.

Notes on modelling fidelity:
* Python `int(...)` also accepts surrounding whitespace and `_` digit
  separators; no input in any theorem below exercises those forms, so the
  model accepts an optional sign followed by ASCII digits.
* CPython's `datetime.datetime` constructor converts each component with
  the C-`int` argument format and raises `OverflowError` for values
  outside `[-2^31, 2^31)` BEFORE the range checks that raise
  `ValueError`; `mkDateTime` reproduces both error kinds, so that the
  `OverflowError` escapes `except ValueError` and the `has_*` handlers.
  Likewise `datetime.timedelta` raises `OverflowError` when the
  normalized day count exceeds ±999999999, modelled by the floor-division
  guard in `_filedates`.
* `str.upper` / `str.isspace` are modelled on ASCII, which covers every
  extension string and date string in the repository.
-/

abbrev Str : Type := List Char

def strL (s : String) : Str := s.data

/-- Python's `needle in haystack` substring test. -/
def pyIn (needle hay : Str) : Bool := decide (needle <:+: hay)

/-- Python whitespace test for `str.split()` (ASCII part). -/
def pyIsSpace (c : Char) : Bool :=
  c = ' ' || c = '\t' || c = '\n' || c = '\r' || c = '\x0b' || c = '\x0c'

/-- ASCII digit test, used by the model of Python `int(...)`. -/
def pyIsDigit (c : Char) : Bool := 48 ≤ c.toNat && c.toNat ≤ 57

def charDigitVal (c : Char) : Nat := c.toNat - 48

/-- Numeric value of a digit string (used by the model of `int(...)`). -/
def decValue (s : Str) : Nat := s.foldl (fun a c => 10 * a + charDigitVal c) 0

/-- Digit-string parser: `some n` iff `s` is a nonempty all-digit string. -/
def parseDigits (s : Str) : Option Nat :=
  if s ≠ [] ∧ s.all pyIsDigit then some (decValue s) else none

/-- Model of Python `int(str)`: optional sign then digits, else `ValueError`
(`none`). -/
def pyInt? (s : Str) : Option Int :=
  match s with
  | [] => none
  | c :: rest =>
    if c = '-' then (parseDigits rest).map (fun n => -(n : Int))
    else if c = '+' then (parseDigits rest).map (fun n => (n : Int))
    else (parseDigits (c :: rest)).map (fun n => (n : Int))

/-- Model of the list comprehension `[int(x) for x in l]`: `none` when any
element raises `ValueError`. -/
def pyIntList? (l : List Str) : Option (List Int) := l.mapM pyInt?

/-- Python `s.split(sep)` for a one-character separator: keeps empty chunks,
`"".split(sep) == [""]`.  Auxiliary accumulator form. -/
def splitOnCharAux (sep : Char) : Str → Str → List Str
  | [], acc => [acc.reverse]
  | c :: rest, acc =>
    if c = sep then acc.reverse :: splitOnCharAux sep rest []
    else splitOnCharAux sep rest (c :: acc)

def splitOnChar (sep : Char) (s : Str) : List Str := splitOnCharAux sep s []

/-- Python `s.split()` (no separator): splits on whitespace runs and drops
empty chunks.  Auxiliary accumulator form. -/
def pySplitWSAux : Str → Str → List Str
  | [], acc => if acc = [] then [] else [acc.reverse]
  | c :: rest, acc =>
    if pyIsSpace c then
      if acc = [] then pySplitWSAux rest []
      else acc.reverse :: pySplitWSAux rest []
    else pySplitWSAux rest (c :: acc)

def pySplitWS (s : Str) : List Str := pySplitWSAux s []

/-- Decimal digit to character. -/
def digitChar : Nat → Char
  | 0 => '0' | 1 => '1' | 2 => '2' | 3 => '3' | 4 => '4'
  | 5 => '5' | 6 => '6' | 7 => '7' | 8 => '8' | _ => '9'

/-- Little-endian digit extraction with explicit fuel, so that the
definition is structurally recursive and reduces inside the kernel. -/
def natDigitsRevFuel : Nat → Nat → List Nat
  | 0, _ => []
  | f + 1, n => if n = 0 then [] else n % 10 :: natDigitsRevFuel f (n / 10)

/-- Little-endian digit list of `n` (empty for `0`); `n` bounds the digit
count, so it is enough fuel. -/
def natDigitsRev (n : Nat) : List Nat := natDigitsRevFuel n n

/-- Decimal rendering of a natural number (Python `str(n)` for `n ≥ 0`). -/
def natToDec (n : Nat) : Str :=
  if n = 0 then ['0'] else (natDigitsRev n).reverse.map digitChar

/-- Zero-padded decimal rendering, as in `strftime` fields `%m`, `%d`, ... -/
def padLeft (w : Nat) (n : Nat) : Str :=
  List.replicate (w - (natToDec n).length) '0' ++ natToDec n

def pad2 (i : Int) : Str := padLeft 2 i.toNat

def pad4 (i : Int) : Str := padLeft 4 i.toNat

/-- Python exception kinds that the embedded code can raise or catch. -/
inductive PyErr where
  | keyError
  | indexError
  | valueError
  | overflowError
  | assertionError
deriving DecidableEq, Repr

deriving instance DecidableEq for Except

/-- Gregorian leap-year rule, as in `datetime`. -/
def isLeapYear (y : Int) : Bool := y % 4 = 0 && (y % 100 ≠ 0 || y % 400 = 0)

def daysInMonth (y m : Int) : Int :=
  if m = 2 then (if isLeapYear y then 29 else 28)
  else if m = 4 ∨ m = 6 ∨ m = 9 ∨ m = 11 then 30 else 31

/-- Model of a timezone-naive `datetime.datetime` value. -/
structure DateTime where
  year : Int
  month : Int
  day : Int
  hour : Int
  minute : Int
  second : Int
  microsecond : Int
deriving DecidableEq, Repr

/-- Range invariants enforced by the `datetime.datetime` constructor. -/
def DateTime.valid (d : DateTime) : Bool :=
  1 ≤ d.year && d.year ≤ 9999 && 1 ≤ d.month && d.month ≤ 12 &&
  1 ≤ d.day && d.day ≤ daysInMonth d.year d.month &&
  0 ≤ d.hour && d.hour ≤ 23 && 0 ≤ d.minute && d.minute ≤ 59 &&
  0 ≤ d.second && d.second ≤ 59 && 0 ≤ d.microsecond && d.microsecond ≤ 999999

/-- Whether a Python int fits the C-`int` argument format of the CPython
`datetime.datetime` constructor. -/
def intFitsC (x : Int) : Bool := -2147483648 ≤ x && x ≤ 2147483647

/-- Model of the `datetime.datetime(y, mo, d, h, mi, s)` constructor call:
CPython first converts every component to a C `int` (`OverflowError`
outside that range), then validates the calendar/clock ranges
(`ValueError`). -/
def mkDateTime (y mo da h mi s : Int) : Except PyErr DateTime :=
  if intFitsC y && intFitsC mo && intFitsC da && intFitsC h && intFitsC mi &&
      intFitsC s then
    if DateTime.valid ⟨y, mo, da, h, mi, s, 0⟩ then
      Except.ok ⟨y, mo, da, h, mi, s, 0⟩
    else Except.error PyErr.valueError
  else Except.error PyErr.overflowError

/-- The sentinel `datetime.datetime(1, 1, 1)` returned on parse failure. -/
def sentinelDate : DateTime := ⟨1, 1, 1, 0, 0, 0, 0⟩

/-- A `datetime` carrying an explicit UTC offset (`tzinfo=timezone(...)`),
offset in minutes. -/
structure DateTimeTz where
  dt : DateTime
  offsetMinutes : Int
deriving DecidableEq, Repr

/-- Embedding of `KernelPrivateTools._metadates` (pykernel.py:87-96):

    try:
        ymd = [int(x) for x in values[0].split(":")]
        hms = [int(x) for x in values[1].split(":")]
        return datetime.datetime(ymd[0], ymd[1], ymd[2],
                                 hms[0], hms[1], hms[2])
    except ValueError:
        return datetime.datetime(1, 1, 1)

Only `ValueError` is caught, and the statements run in Python order:
`values[0]` is indexed first (`IndexError` on an empty list escapes the
`try`), then its ints are parsed (`ValueError` caught), then `values[1]`
is indexed (`IndexError` escapes — so a one-token list whose date token
parses reaches it, while a non-numeric one-token list already returned
the sentinel), then its ints are parsed, then `ymd[2]`/`hms[2]` indexing
(`IndexError` escapes), then the `datetime` constructor (`OverflowError`
escapes, `ValueError` caught). -/
def _metadates (values : List Str) : Except PyErr DateTime :=
  match values with
  | [] => Except.error PyErr.indexError
  | v0 :: rest0 =>
    match pyIntList? (splitOnChar ':' v0) with
    | none => Except.ok sentinelDate
    | some ymd =>
      match rest0 with
      | [] => Except.error PyErr.indexError
      | v1 :: _ =>
        match pyIntList? (splitOnChar ':' v1) with
        | none => Except.ok sentinelDate
        | some hms =>
          if h : 3 ≤ ymd.length ∧ 3 ≤ hms.length then
            match mkDateTime ymd[0] ymd[1] ymd[2] hms[0] hms[1] hms[2] with
            | Except.ok d => Except.ok d
            | Except.error PyErr.valueError => Except.ok sentinelDate
            | Except.error e => Except.error e
          else Except.error PyErr.indexError

/-- Embedding of `KernelPrivateTools._filedates` (pykernel.py:76-85):

    ymd = [int(x) for x in values[0].split(":")]
    hms = [int(x) for x in values[1].split("+")[0].split(":")]
    znes = values[1].split("+")[1].split(":")
    return datetime.datetime(..., tzinfo=datetime.timezone(
        datetime.timedelta(hours=int(znes[0]), minutes=int(znes[1]))))

No `try` block: every failure propagates, in Python statement order:
`values[0]` index, `ymd` ints (so `_filedates(["x"])` is a `ValueError`
from `int("x")`, reached before `values[1]`), `values[1]` index, `hms`
ints, the `[1]` index on the `'+'`-split, the `ymd`/`hms` indexing,
`int(znes[0])`, the `znes[1]` index, `int(znes[1])`, the `timedelta`
day-magnitude bound (`OverflowError`), the `timezone` range check
(`ValueError`), and the `datetime` constructor. -/
def _filedates (values : List Str) : Except PyErr DateTimeTz :=
  match values with
  | [] => Except.error PyErr.indexError
  | v0 :: rest0 =>
    match pyIntList? (splitOnChar ':' v0) with
    | none => Except.error PyErr.valueError
    | some ymd =>
      match rest0 with
      | [] => Except.error PyErr.indexError
      | v1 :: _ =>
        let plusParts := splitOnChar '+' v1
        match pyIntList? (splitOnChar ':' (plusParts.headD [])) with
        | none => Except.error PyErr.valueError
        | some hms =>
          match plusParts[1]? with
          | none => Except.error PyErr.indexError
          | some part1 =>
            let znes := splitOnChar ':' part1
            if h : 3 ≤ ymd.length ∧ 3 ≤ hms.length then
              match pyInt? (znes.headD []) with
              | none => Except.error PyErr.valueError
              | some zh =>
                match znes[1]? with
                | none => Except.error PyErr.indexError
                | some zn1 =>
                  match pyInt? zn1 with
                  | none => Except.error PyErr.valueError
                  | some zm =>
                    if -999999999 ≤ Int.fdiv (60 * zh + zm) 1440 ∧
                        Int.fdiv (60 * zh + zm) 1440 ≤ 999999999 then
                      if -1440 < 60 * zh + zm ∧ 60 * zh + zm < 1440 then
                        match mkDateTime ymd[0] ymd[1] ymd[2]
                            hms[0] hms[1] hms[2] with
                        | Except.ok d => Except.ok ⟨d, 60 * zh + zm⟩
                        | Except.error e => Except.error e
                      else Except.error PyErr.valueError
                    else Except.error PyErr.overflowError
            else Except.error PyErr.indexError

/-- Rendering `date2add.strftime("%Y:%m:%d %H:%M:%S")`. -/
def strftimeYmdHMS (d : DateTime) : Str :=
  pad4 d.year ++ ':' :: pad2 d.month ++ ':' :: pad2 d.day ++ ' ' ::
    (pad2 d.hour ++ ':' :: pad2 d.minute ++ ':' :: pad2 d.second)

/-- Embedding of `KernelPrivateTools._setmetadates` (pykernel.py:98-103):
`('-' + kwrd + '=') + date2add.strftime("%Y:%m:%d %H:%M:%S")`. -/
def _setmetadates (kwrd : Str) (date2add : DateTime) : Str :=
  '-' :: kwrd ++ '=' :: strftimeYmdHMS date2add

/-- Descriptor of one keyword group from `pygroups.Keywords`: the
`readable` / `editable` flags and compatible extensions declared by each
`BaseKwd` subclass. -/
structure BaseKwd where
  gname : String
  readable : Bool
  editable : Bool
  extensions : List Str
deriving DecidableEq, Repr

/-- `Keywords.ExifTool` (pygroups.py:59-65). -/
def Keywords_ExifTool : BaseKwd := ⟨"ExifTool", true, false, []⟩

/-- `Keywords.File` (pygroups.py:67-75). -/
def Keywords_File : BaseKwd := ⟨"File", true, false, []⟩

/-- `Keywords.Exif` (pygroups.py:77-87). -/
def Keywords_Exif : BaseKwd :=
  ⟨"Exif", true, true, [strL "JPEG", strL "JPG", strL "PNG", strL "MPO"]⟩

/-- `Keywords.QuickTime` (pygroups.py:89-101). -/
def Keywords_QuickTime : BaseKwd :=
  ⟨"QuickTime", true, true, [strL "MOV", strL "3GP", strL "MP4", strL "M4V"]⟩

/-- `Keywords.Asf` (pygroups.py:103-109). -/
def Keywords_Asf : BaseKwd := ⟨"Asf", false, false, []⟩

/-- `Keywords.NoArranged` (pygroups.py:111-119). -/
def Keywords_NoArranged : BaseKwd :=
  ⟨"NoArranged", false, false,
    [strL "BMP", strL "AVI", strL "MPG", strL "WAV", strL "MP3"]⟩

/-- The members of `Keywords`, in declaration order (what the pygroups
autotest loop `for _name in vars(Keywords)` iterates over). -/
def KeywordsMembers : List BaseKwd :=
  [Keywords_ExifTool, Keywords_File, Keywords_Exif, Keywords_QuickTime,
   Keywords_Asf, Keywords_NoArranged]

/-- Tag constants from pygroups.py used by the kernels. -/
def Keywords_tool_version : Str := strL "ExifTool:ExifToolVersion"

def Keywords_Exif_datetime_original : Str := strL "EXIF:DateTimeOriginal"

def Keywords_Exif_modify_date : Str := strL "EXIF:ModifyDate"

def Keywords_QuickTime_create_date : Str := strL "QuickTime:CreateDate"

/-- The module-level autotest of pygroups.py:134-153 as one boolean: it is
`false` exactly when one of its `assert` statements would abort the import
(a fatal startup error).  The `isinstance(_, BaseKwd)` assert is the
typing of `KeywordsMembers` itself. -/
def pygroups_autotest : Bool :=
  KeywordsMembers.all fun k =>
    (!(k.editable && !k.readable)) &&
    (!(((k.editable || k.readable) &&
        !(k.gname == "ExifTool" || k.gname == "File")) &&
       k.extensions.isEmpty))

/-- Model of a `pathlib.Path`: the parent directory rendered as a string
plus the final component (`Path.name`). -/
structure PyPath where
  parent : Str
  name : Str
deriving DecidableEq, Repr

/-- `str(path)`, with the parent joined to the name by `/`. -/
def pyPathStr (p : PyPath) : Str := p.parent ++ '/' :: p.name

/-- Index of the last `'.'` in a name, if any (`str.rfind('.')`). -/
def rfindDot : Str → Nat → Option Nat
  | [], _ => none
  | c :: rest, i =>
    match rfindDot rest (i + 1) with
    | some j => some j
    | none => if c = '.' then some i else none

/-- `pathlib.PurePath.suffix`: the final `'.'`-suffix of the name, empty
when the dot is leading or trailing or absent. -/
def pySuffix (name : Str) : Str :=
  match rfindDot name 0 with
  | some i => if 0 < i ∧ i < name.length - 1 then name.drop i else []
  | none => []

/-- ASCII `str.upper` on one character. -/
def chUpper (c : Char) : Char :=
  if 97 ≤ c.toNat ∧ c.toNat ≤ 122 then Char.ofNat (c.toNat - 32) else c

/-- `path.suffix[1:].upper()`: the loaded file's extension key used by the
dispatcher. -/
def file_extension (p : PyPath) : Str := ((pySuffix p.name).drop 1).map chUpper

/-- State of one `PyKernel` session: `self._exiftool_path`,
`self._filepath`, `self._metadata`, `self._commands` (pykernel.py:167-172).
Logging state is not modelled. -/
structure KernelState where
  exiftool_path : Str
  filepath : Option PyPath
  metadata : List (Str × Str)
  commands : List Str
deriving DecidableEq, Repr

/-- Oracle for everything outside the session: the external tool's stdout
for a command line (`KernelPrivateTools._execute`), the
`filetools.itername` collaborator, `Path.is_file`, and `json.loads(raw)[0]`
read as a tag-to-string map. -/
structure ExtEnv where
  exec : List Str → Str
  itername : PyPath → PyPath
  is_file : PyPath → Bool
  jsonParse : Str → List (Str × Str)

/-- Filesystem side effects of one `save_file` call: the argument lists
passed to the external tool and the paths handed to `os.remove`. -/
structure SaveEffects where
  execs : List (List Str)
  removed : List PyPath
deriving DecidableEq, Repr

/-- Python `dict[key]` lookup on the metadata map. -/
def pyDictGet (m : List (Str × Str)) (k : Str) : Option Str :=
  match m with
  | [] => none
  | (k0, v) :: rest => if k0 = k then some v else pyDictGet rest k

/-- Embedding of `PyKernel.load_file` (pykernel.py:220-237): record the
path, clear metadata and commands, run `<tool> -G -J <path>`; when the
tool-version marker occurs in the raw output, set the baseline commands
`[toolpath, "-P"]` and parse the JSON, else leave them cleared.  The
`file2load.is_file()` assert is a caller precondition left outside the
model; logging is dropped. -/
def load_file (env : ExtEnv) (st : KernelState) (file2load : PyPath) :
    KernelState :=
  let st1 : KernelState :=
    { st with filepath := some file2load, commands := [], metadata := [] }
  let raw := env.exec
    [st.exiftool_path, strL "-G", strL "-J", pyPathStr file2load]
  if pyIn Keywords_tool_version raw then
    { st1 with commands := [st.exiftool_path, strL "-P"],
               metadata := env.jsonParse raw }
  else st1

/-- Embedding of `PyKernel.__save_newname` (pykernel.py:302-320): resolve
the target in the loaded file's directory, delete it when `overwrite` and
it exists, pass the resolved name through `itername`, append the
`-filename=` directive and the loaded path, execute.  Returns the raw
stdout together with the mutated state and the effects. -/
def save_newname (env : ExtEnv) (st : KernelState) (p : PyPath)
    (overwrite : Bool) (output_filename : Str) :
    Str × KernelState × SaveEffects :=
  let new_file_path : PyPath := ⟨p.parent, output_filename⟩
  let removed := if overwrite && env.is_file new_file_path
    then [new_file_path] else []
  let resolved := env.itername new_file_path
  let cmds := st.commands ++
    [strL "-filename=" ++ pyPathStr resolved, pyPathStr p]
  (env.exec cmds, { st with commands := cmds }, ⟨[cmds], removed⟩)

/-- Embedding of `PyKernel.__save_samename` (pykernel.py:282-300): with
`overwrite=False`, delegate to the new-name path under the `itername` of
the loaded file; with `overwrite=True`, append the loaded path, execute,
and delete the `_original` backup (recorded as an effect; its possible
`OSError` is the spec's separate fatal I/O case, outside the model). -/
def save_samename (env : ExtEnv) (st : KernelState) (p : PyPath)
    (overwrite : Bool) : Str × KernelState × SaveEffects :=
  if !overwrite then
    save_newname env st p false (env.itername p).name
  else
    let cmds := st.commands ++ [pyPathStr p]
    (env.exec cmds, { st with commands := cmds },
      ⟨[cmds], [⟨p.parent, p.name ++ strL "_original"⟩]⟩)

/-- Embedding of `PyKernel.save_file` (pykernel.py:244-280): fail when no
file is loaded or when exactly the two baseline commands are queued; pick
the same-name or new-name path by comparing `output_filename` with the
loaded name; success is the substring test
`('unchanged' not in result) and ('errors' not in result)`. -/
def save_file (env : ExtEnv) (st : KernelState) (output_filename : Str)
    (overwrite : Bool) : Bool × KernelState × SaveEffects :=
  match st.filepath with
  | none => (false, st, ⟨[], []⟩)
  | some p =>
    if st.commands.length = 2 then (false, st, ⟨[], []⟩)
    else
      let r :=
        if output_filename = [] ∨ output_filename = p.name then
          save_samename env st p overwrite
        else
          save_newname env st p overwrite output_filename
      (!pyIn (strL "unchanged") r.1 && !pyIn (strL "errors") r.1, r.2)

/-- `PyExifKernel.get_exif_original_date` (kpyexif.py:90-93): raw dict
access (a `KeyError` when absent), whitespace split, `_metadates`. -/
def get_exif_original_date (st : KernelState) : Except PyErr DateTime :=
  match pyDictGet st.metadata Keywords_Exif_datetime_original with
  | none => Except.error PyErr.keyError
  | some v => _metadates (pySplitWS v)

/-- `PyExifKernel.get_exif_modify_date` (kpyexif.py:85-88). -/
def get_exif_modify_date (st : KernelState) : Except PyErr DateTime :=
  match pyDictGet st.metadata Keywords_Exif_modify_date with
  | none => Except.error PyErr.keyError
  | some v => _metadates (pySplitWS v)

/-- `PyMovKernel.get_mov_create_date` (kpymov.py:41-44). -/
def get_mov_create_date (st : KernelState) : Except PyErr DateTime :=
  match pyDictGet st.metadata Keywords_QuickTime_create_date with
  | none => Except.error PyErr.keyError
  | some v => _metadates (pySplitWS v)

/-- `PyExifKernel.has_exif_original_date` (kpyexif.py:42-55): membership
test, then the getter inside `try` catching exactly `IndexError`,
`KeyError` and `ValueError` as `False`; other exceptions escape. -/
def has_exif_original_date (st : KernelState) : Except PyErr Bool :=
  if (pyDictGet st.metadata Keywords_Exif_datetime_original).isSome then
    match get_exif_original_date st with
    | Except.ok _ => Except.ok true
    | Except.error PyErr.indexError => Except.ok false
    | Except.error PyErr.keyError => Except.ok false
    | Except.error PyErr.valueError => Except.ok false
    | Except.error e => Except.error e
  else Except.ok false

/-- `PyExifKernel.has_exif_modify_date` (kpyexif.py:27-40). -/
def has_exif_modify_date (st : KernelState) : Except PyErr Bool :=
  if (pyDictGet st.metadata Keywords_Exif_modify_date).isSome then
    match get_exif_modify_date st with
    | Except.ok _ => Except.ok true
    | Except.error PyErr.indexError => Except.ok false
    | Except.error PyErr.keyError => Except.ok false
    | Except.error PyErr.valueError => Except.ok false
    | Except.error e => Except.error e
  else Except.ok false

/-- `PyMovKernel.has_mov_create_date` (kpymov.py:27-39). -/
def has_mov_create_date (st : KernelState) : Except PyErr Bool :=
  if (pyDictGet st.metadata Keywords_QuickTime_create_date).isSome then
    match get_mov_create_date st with
    | Except.ok _ => Except.ok true
    | Except.error PyErr.indexError => Except.ok false
    | Except.error PyErr.keyError => Except.ok false
    | Except.error PyErr.valueError => Except.ok false
    | Except.error e => Except.error e
  else Except.ok false

/-- `PyExifKernel.has_exif_date_original_field` (kpyexif.py:22-25). -/
def has_exif_date_original_field (st : KernelState) : Bool :=
  (pyDictGet st.metadata Keywords_Exif_datetime_original).isSome

/-- `PyMovKernel.has_mov_create_date_field` (kpymov.py:21-24). -/
def has_mov_create_date_field (st : KernelState) : Bool :=
  (pyDictGet st.metadata Keywords_QuickTime_create_date).isSome

/-- `PyExifKernel.set_exif_original_date` (kpyexif.py:110-113): append the
serialized `-tag=value` token to the pending commands. -/
def set_exif_original_date (st : KernelState) (date2add : DateTime) :
    KernelState :=
  { st with commands := st.commands ++
      [_setmetadates Keywords_Exif_datetime_original date2add] }

/-- `PyMovKernel.set_mov_create_date` (kpymov.py:55-58). -/
def set_mov_create_date (st : KernelState) (date2add : DateTime) :
    KernelState :=
  { st with commands := st.commands ++
      [_setmetadates Keywords_QuickTime_create_date date2add] }

/-- The `__bases__` of `ExifToolManager` contribute their `__KEYWORD`
constants in order: `PyExifKernel → Keywords.Exif`,
`PyMovKernel → Keywords.QuickTime` (exiftoolmgr.py:15,67-72). -/
def manager_keywords : List BaseKwd := [Keywords_Exif, Keywords_QuickTime]

/-- `ExifToolManager.fast_readable_formats` (exiftoolmgr.py:123-131):
concatenate the extensions of the readable groups, in base order. -/
def fast_readable_formats : List Str :=
  manager_keywords.foldl
    (fun acc k => if k.readable then acc ++ k.extensions else acc) []

/-- `ExifToolManager.fast_editable_formats` (exiftoolmgr.py:133-141). -/
def fast_editable_formats : List Str :=
  manager_keywords.foldl
    (fun acc k => if k.editable then acc ++ k.extensions else acc) []

/-- `ExifToolManager.has_readable_metadate` (exiftoolmgr.py:84-88):
asserts a file is loaded, then tests the uppercased extension against the
readable formats. -/
def has_readable_metadate (st : KernelState) : Except PyErr Bool :=
  match st.filepath with
  | none => Except.error PyErr.assertionError
  | some p => Except.ok (decide (file_extension p ∈ fast_readable_formats))

/-- `ExifToolManager.has_metadata_date_original` (exiftoolmgr.py:109-121):
readable-support gate, then the Exif check, then the QuickTime check. -/
def has_metadata_date_original (st : KernelState) : Except PyErr Bool :=
  match has_readable_metadate st with
  | Except.error e => Except.error e
  | Except.ok false => Except.ok false
  | Except.ok true =>
    match has_exif_original_date st with
    | Except.error e => Except.error e
    | Except.ok true => Except.ok true
    | Except.ok false =>
      match has_mov_create_date st with
      | Except.error e => Except.error e
      | Except.ok b => Except.ok b

/-- `ExifToolManager.get_date_original` (exiftoolmgr.py:155-167): Exif
first, then QuickTime, else `assert False`. -/
def get_date_original (st : KernelState) : Except PyErr DateTime :=
  match has_exif_original_date st with
  | Except.error e => Except.error e
  | Except.ok true => get_exif_original_date st
  | Except.ok false =>
    match has_mov_create_date st with
    | Except.error e => Except.error e
    | Except.ok true => get_mov_create_date st
    | Except.ok false => Except.error PyErr.assertionError

/-- `ExifToolManager.set_date_original` (exiftoolmgr.py:180-194): assert a
file is loaded, dispatch on the uppercased extension against
`Keywords.Exif.extensions` then `Keywords.QuickTime.extensions`, else
`assert False` with no command queued. -/
def set_date_original (st : KernelState) (date2add : DateTime) :
    Except PyErr KernelState :=
  match st.filepath with
  | none => Except.error PyErr.assertionError
  | some p =>
    let extension := file_extension p
    if extension ∈ Keywords_Exif.extensions then
      Except.ok (set_exif_original_date st date2add)
    else if extension ∈ Keywords_QuickTime.extensions then
      Except.ok (set_mov_create_date st date2add)
    else Except.error PyErr.assertionError

/-- What a `has_*` property's `try/except` makes of its getter's outcome:
a normal return is `True`, a caught `IndexError`/`KeyError`/`ValueError`
is `False`, and any other exception (notably `OverflowError`)
propagates. -/
def hasResult (r : Except PyErr DateTime) : Except PyErr Bool :=
  match r with
  | Except.ok _ => Except.ok true
  | Except.error PyErr.indexError => Except.ok false
  | Except.error PyErr.keyError => Except.ok false
  | Except.error PyErr.valueError => Except.ok false
  | Except.error e => Except.error e

/-- Concrete oracle for witnesses: the external tool prints nothing, the
filesystem is empty, `itername` resolves to its input. -/
def testEnv : ExtEnv :=
  { exec := fun _ => []
  , itername := fun p => p
  , is_file := fun _ => false
  , jsonParse := fun _ => [] }

/-- Concrete oracle whose tool output contains the version marker, so
loads succeed; `jsonParse` yields one Exif original-date field. -/
def testEnvLoaded : ExtEnv :=
  { exec := fun _ => Keywords_tool_version
  , itername := fun p => p
  , is_file := fun _ => false
  , jsonParse := fun _ =>
      [(Keywords_Exif_datetime_original, strL "2021:05:10 14:30:00")] }

/-- A fresh session before any load. -/
def st0 : KernelState := ⟨strL "exiftool", none, [], []⟩

/-- A concrete path used by witnesses. -/
def p0 : PyPath := ⟨strL "/tmp", strL "photo.jpg"⟩

/-- A concrete date value used by witnesses. -/
def d0 : DateTime := ⟨2021, 5, 10, 14, 30, 0, 0⟩

/-- A loaded session with one queued edit beyond the baseline. -/
def stReady : KernelState :=
  ⟨strL "exiftool", some p0, [],
   [strL "exiftool", strL "-P", _setmetadates Keywords_Exif_datetime_original d0]⟩

/-- A session whose Exif original-date field holds a garbage value. -/
def stGarbage : KernelState :=
  ⟨strL "exiftool", none,
   [(Keywords_Exif_datetime_original, strL "a:b:c d:e:f")], []⟩

/-- A session with only a QuickTime create date, no Exif fields. -/
def stMovOnly : KernelState :=
  ⟨strL "exiftool", some (⟨strL "/tmp", strL "clip.mov"⟩ : PyPath),
   [(Keywords_QuickTime_create_date, strL "2020:01:01 00:00:00")], []⟩

/-- Date token rendered by the write-serializer: `YYYY:MM:DD`. -/
def dateToken (d : DateTime) : Str :=
  pad4 d.year ++ ':' :: (pad2 d.month ++ ':' :: pad2 d.day)

/-- Time token rendered by the write-serializer: `HH:MM:SS`. -/
def timeToken (d : DateTime) : Str :=
  pad2 d.hour ++ ':' :: (pad2 d.minute ++ ':' :: pad2 d.second)

/-- A `ZH:ZM` UTC-offset token as found in `File:*` date fields. -/
def offsetToken (zh zm : Int) : Str := pad2 zh ++ ':' :: pad2 zm

theorem strftime_split (d : DateTime) :
    strftimeYmdHMS d = dateToken d ++ ' ' :: timeToken d := by
  simp [strftimeYmdHMS, dateToken, timeToken]

theorem natDigitsRevFuel_congr :
    ∀ f g n : Nat, n ≤ f → n ≤ g →
      natDigitsRevFuel f n = natDigitsRevFuel g n := by
  intro f
  induction f with
  | zero =>
    intro g n hf _
    have hn : n = 0 := Nat.le_zero.mp hf
    subst hn
    cases g with
    | zero => rfl
    | succ g => rw [natDigitsRevFuel, natDigitsRevFuel, if_pos rfl]
  | succ f ih =>
    intro g n hf hg
    cases g with
    | zero =>
      have hn : n = 0 := Nat.le_zero.mp hg
      subst hn
      rw [natDigitsRevFuel, natDigitsRevFuel, if_pos rfl]
    | succ g =>
      rw [natDigitsRevFuel, natDigitsRevFuel]
      by_cases h : n = 0
      · rw [if_pos h, if_pos h]
      · rw [if_neg h, if_neg h]
        have hdiv : n / 10 < n :=
          Nat.div_lt_self (Nat.pos_of_ne_zero h) (by decide)
        rw [ih g (n / 10) (by omega) (by omega)]

/-- The recursion equation of `natDigitsRev`. -/
theorem natDigitsRev_eq (n : Nat) :
    natDigitsRev n = if n = 0 then [] else n % 10 :: natDigitsRev (n / 10) := by
  by_cases h : n = 0
  · subst h; rfl
  · rw [if_neg h]
    cases n with
    | zero => exact absurd rfl h
    | succ m =>
      rw [natDigitsRev, natDigitsRevFuel, if_neg h, natDigitsRev]
      have hdiv : (m + 1) / 10 < m + 1 :=
        Nat.div_lt_self (Nat.succ_pos m) (by decide)
      rw [natDigitsRevFuel_congr m ((m + 1) / 10) ((m + 1) / 10) (by omega)
        (Nat.le_refl _)]

theorem natDigitsRev_lt (n : Nat) : ∀ d ∈ natDigitsRev n, d < 10 := by
  induction n using Nat.strong_induction_on with
  | _ n ih =>
    intro d hd
    by_cases h : n = 0
    · subst h; rw [natDigitsRev_eq] at hd; simp at hd
    · rw [natDigitsRev_eq, if_neg h] at hd
      rcases List.mem_cons.mp hd with rfl | hd'
      · omega
      · exact ih (n / 10) (Nat.div_lt_self (Nat.pos_of_ne_zero h) (by decide))
          d hd'

theorem digitsVal_rev (n : Nat) :
    ((natDigitsRev n).reverse).foldl (fun a d => 10 * a + d) 0 = n := by
  induction n using Nat.strong_induction_on with
  | _ n ih =>
    by_cases h : n = 0
    · subst h; rw [natDigitsRev_eq]; simp
    · rw [natDigitsRev_eq, if_neg h, List.reverse_cons, List.foldl_append,
        ih (n / 10) (Nat.div_lt_self (Nat.pos_of_ne_zero h) (by decide))]
      simp
      omega

theorem charDigitVal_digitChar (d : Nat) (h : d < 10) :
    charDigitVal (digitChar d) = d := by
  interval_cases d <;> decide

theorem pyIsDigit_digitChar (d : Nat) (h : d < 10) :
    pyIsDigit (digitChar d) = true := by
  interval_cases d <;> decide

theorem foldl_digits (l : List Nat) (hl : ∀ d ∈ l, d < 10) (a : Nat) :
    l.foldl (fun x d => 10 * x + charDigitVal (digitChar d)) a =
      l.foldl (fun x d => 10 * x + d) a := by
  induction l generalizing a with
  | nil => rfl
  | cons d t ih =>
    simp only [List.foldl_cons]
    rw [charDigitVal_digitChar d (hl d (List.mem_cons_self d t))]
    exact ih (fun x hx => hl x (List.mem_cons_of_mem _ hx)) _

theorem decValue_natToDec (n : Nat) : decValue (natToDec n) = n := by
  unfold natToDec decValue
  by_cases h : n = 0
  · subst h; simp [charDigitVal]
  · rw [if_neg h, List.foldl_map,
      foldl_digits _ (fun d hd => natDigitsRev_lt n d (List.mem_reverse.mp hd)) 0,
      digitsVal_rev]

theorem natToDec_ne_nil (n : Nat) : natToDec n ≠ [] := by
  unfold natToDec
  by_cases h : n = 0
  · simp [h]
  · rw [if_neg h]
    intro hc
    rw [List.map_eq_nil_iff, List.reverse_eq_nil_iff, natDigitsRev_eq,
      if_neg h] at hc
    cases hc

theorem natToDec_all_digits (n : Nat) :
    ∀ c ∈ natToDec n, pyIsDigit c = true := by
  unfold natToDec
  by_cases h : n = 0
  · simp [h]; decide
  · rw [if_neg h]
    intro c hc
    obtain ⟨d, hd, rfl⟩ := List.mem_map.mp hc
    exact pyIsDigit_digitChar d (natDigitsRev_lt n d (List.mem_reverse.mp hd))

theorem padLeft_ne_nil (w n : Nat) : padLeft w n ≠ [] := by
  unfold padLeft
  intro hc
  rcases List.append_eq_nil.mp hc with ⟨-, h2⟩
  exact natToDec_ne_nil n h2

theorem padLeft_all_digits (w n : Nat) :
    ∀ c ∈ padLeft w n, pyIsDigit c = true := by
  intro c hc
  rcases List.mem_append.mp hc with h | h
  · rw [List.eq_of_mem_replicate h]; decide
  · exact natToDec_all_digits n c h

theorem decValue_replicate_zero (k : Nat) (s : Str) :
    decValue (List.replicate k '0' ++ s) = decValue s := by
  induction k with
  | zero => simp
  | succ k ih =>
    rw [List.replicate_succ, List.cons_append]
    unfold decValue at ih ⊢
    simpa [charDigitVal] using ih

theorem decValue_padLeft (w n : Nat) : decValue (padLeft w n) = n := by
  rw [padLeft, decValue_replicate_zero, decValue_natToDec]

theorem parseDigits_padLeft (w n : Nat) : parseDigits (padLeft w n) = some n := by
  unfold parseDigits
  rw [if_pos ⟨padLeft_ne_nil w n, List.all_eq_true.mpr (padLeft_all_digits w n)⟩,
    decValue_padLeft]

theorem digit_ne (c : Char) (h : pyIsDigit c = true) (x : Char)
    (hx : pyIsDigit x = false) : c ≠ x := by
  rintro rfl
  rw [h] at hx
  cases hx

theorem not_mem_of_digits (s : Str) (hall : ∀ c ∈ s, pyIsDigit c = true)
    (x : Char) (hx : pyIsDigit x = false) : x ∉ s := by
  intro hm
  have := hall x hm
  rw [hx] at this
  cases this

theorem pyIsDigit_not_space (c : Char) (h : pyIsDigit c = true) :
    pyIsSpace c = false := by
  by_contra hs
  have hs' : pyIsSpace c = true := by revert hs; cases pyIsSpace c <;> simp
  simp only [pyIsSpace, Bool.or_eq_true, decide_eq_true_eq] at hs'
  rcases hs' with ((((rfl | rfl) | rfl) | rfl) | rfl) | rfl <;> revert h <;>
    decide

theorem pyInt?_padLeft (w n : Nat) : pyInt? (padLeft w n) = some (n : Int) := by
  cases hp : padLeft w n with
  | nil => exact absurd hp (padLeft_ne_nil w n)
  | cons c t =>
    have hc : pyIsDigit c = true :=
      padLeft_all_digits w n c (hp ▸ List.mem_cons_self c t)
    rw [pyInt?]
    rw [if_neg (digit_ne c hc '-' (by decide)),
      if_neg (digit_ne c hc '+' (by decide)), ← hp, parseDigits_padLeft]
    rfl

theorem pyInt?_pad2 (i : Int) (h : 0 ≤ i) : pyInt? (pad2 i) = some i := by
  rw [pad2, pyInt?_padLeft, Int.toNat_of_nonneg h]

theorem pyInt?_pad4 (i : Int) (h : 0 ≤ i) : pyInt? (pad4 i) = some i := by
  rw [pad4, pyInt?_padLeft, Int.toNat_of_nonneg h]

theorem splitAux_no_sep (sep : Char) (s acc : Str) (h : sep ∉ s) :
    splitOnCharAux sep s acc = [acc.reverse ++ s] := by
  induction s generalizing acc with
  | nil => simp [splitOnCharAux]
  | cons c t ih =>
    have hc : ¬c = sep := fun e => h (e ▸ List.mem_cons_self c t)
    rw [splitOnCharAux, if_neg hc, ih _ (fun hm => h (List.mem_cons_of_mem _ hm))]
    simp

theorem splitAux_sep (sep : Char) (a rest acc : Str) (h : sep ∉ a) :
    splitOnCharAux sep (a ++ sep :: rest) acc =
      (acc.reverse ++ a) :: splitOnCharAux sep rest [] := by
  induction a generalizing acc with
  | nil => simp [splitOnCharAux]
  | cons c t ih =>
    have hc : ¬c = sep := fun e => h (e ▸ List.mem_cons_self c t)
    rw [List.cons_append, splitOnCharAux, if_neg hc,
      ih _ (fun hm => h (List.mem_cons_of_mem _ hm))]
    simp

theorem splitOnChar_no_sep (sep : Char) (s : Str) (h : sep ∉ s) :
    splitOnChar sep s = [s] := by
  rw [splitOnChar, splitAux_no_sep sep s [] h]
  rfl

theorem splitOnChar_pair (sep : Char) (a b : Str) (ha : sep ∉ a)
    (hb : sep ∉ b) : splitOnChar sep (a ++ sep :: b) = [a, b] := by
  rw [splitOnChar, splitAux_sep sep a b [] ha, splitAux_no_sep sep b [] hb]
  rfl

theorem splitOnChar_three (sep : Char) (a b c : Str) (ha : sep ∉ a)
    (hb : sep ∉ b) (hc : sep ∉ c) :
    splitOnChar sep (a ++ sep :: (b ++ sep :: c)) = [a, b, c] := by
  rw [splitOnChar, splitAux_sep sep a _ [] ha, splitAux_sep sep b _ [] hb,
    splitAux_no_sep sep c [] hc]
  rfl

theorem wsAux_no_ws (s : Str) (hall : ∀ c ∈ s, pyIsSpace c = false) :
    ∀ acc : Str, acc.reverse ++ s ≠ [] →
      pySplitWSAux s acc = [acc.reverse ++ s] := by
  induction s with
  | nil =>
    intro acc hne
    have hacc : ¬acc = [] := by
      intro h; rw [h] at hne; exact hne rfl
    rw [pySplitWSAux, if_neg hacc]
    simp
  | cons c t ih =>
    intro acc _
    have hc : ¬pyIsSpace c = true := by
      rw [hall c (List.mem_cons_self c t)]; exact Bool.false_ne_true
    rw [pySplitWSAux, if_neg hc,
      ih (fun x hx => hall x (List.mem_cons_of_mem _ hx)) (c :: acc)
        (by simp)]
    simp

theorem wsAux_pair (b : Str) (hb : ∀ c ∈ b, pyIsSpace c = false)
    (hbne : b ≠ []) (a : Str) (ha : ∀ c ∈ a, pyIsSpace c = false) :
    ∀ acc : Str, acc.reverse ++ a ≠ [] →
      pySplitWSAux (a ++ ' ' :: b) acc = [acc.reverse ++ a, b] := by
  induction a with
  | nil =>
    intro acc hne
    have hacc : ¬acc = [] := by
      intro h; rw [h] at hne; exact hne rfl
    rw [List.nil_append, pySplitWSAux, if_pos (by decide), if_neg hacc,
      wsAux_no_ws b hb [] (by simpa using hbne)]
    simp
  | cons c t ih =>
    intro acc _
    have hc : ¬pyIsSpace c = true := by
      rw [ha c (List.mem_cons_self c t)]; exact Bool.false_ne_true
    rw [List.cons_append, pySplitWSAux, if_neg hc,
      ih (fun x hx => ha x (List.mem_cons_of_mem _ hx)) (c :: acc) (by simp)]
    simp

theorem pySplitWS_pair (a b : Str) (ha : ∀ c ∈ a, pyIsSpace c = false)
    (hb : ∀ c ∈ b, pyIsSpace c = false) (hane : a ≠ []) (hbne : b ≠ []) :
    pySplitWS (a ++ ' ' :: b) = [a, b] := by
  rw [pySplitWS, wsAux_pair b hb hbne a ha [] (by simpa using hane)]
  rfl

theorem valid_nonneg (d : DateTime) (hv : d.valid = true) :
    0 ≤ d.year ∧ 0 ≤ d.month ∧ 0 ≤ d.day ∧ 0 ≤ d.hour ∧ 0 ≤ d.minute ∧
      0 ≤ d.second := by
  simp only [DateTime.valid, Bool.and_eq_true, decide_eq_true_eq] at hv
  omega

theorem daysInMonth_le (y m : Int) : daysInMonth y m ≤ 31 := by
  unfold daysInMonth
  split
  · split <;> decide
  · split <;> decide

theorem mkDateTime_self (d : DateTime) (hv : d.valid = true)
    (hm : d.microsecond = 0) :
    mkDateTime d.year d.month d.day d.hour d.minute d.second =
      Except.ok d := by
  have hd31 := daysInMonth_le d.year d.month
  have hfit : (intFitsC d.year && intFitsC d.month && intFitsC d.day &&
      intFitsC d.hour && intFitsC d.minute && intFitsC d.second) = true := by
    have hv' := hv
    simp only [DateTime.valid, Bool.and_eq_true, decide_eq_true_eq] at hv'
    simp only [intFitsC, Bool.and_eq_true, decide_eq_true_eq]
    omega
  cases d with
  | mk y mo da h mi s ms =>
    simp only at hm hfit hv
    subst hm
    simp only [mkDateTime]
    rw [if_pos hfit, if_pos hv]

theorem pyIntList?_two (a b : Str) (x y : Int) (ha : pyInt? a = some x)
    (hb : pyInt? b = some y) : pyIntList? [a, b] = some [x, y] := by
  rw [pyIntList?, List.mapM_cons, List.mapM_cons, List.mapM_nil, ha, hb]
  rfl

theorem pyIntList?_three (a b c : Str) (x y z : Int) (ha : pyInt? a = some x)
    (hb : pyInt? b = some y) (hc : pyInt? c = some z) :
    pyIntList? [a, b, c] = some [x, y, z] := by
  rw [pyIntList?, List.mapM_cons, List.mapM_cons, List.mapM_cons,
    List.mapM_nil, ha, hb, hc]
  rfl

theorem dateToken_parse (d : DateTime) (hy : 0 ≤ d.year) (hmo : 0 ≤ d.month)
    (hda : 0 ≤ d.day) :
    pyIntList? (splitOnChar ':' (dateToken d)) =
      some [d.year, d.month, d.day] := by
  rw [dateToken, pad4, pad2, pad2,
    splitOnChar_three ':' _ _ _
      (not_mem_of_digits _ (padLeft_all_digits _ _) ':' (by decide))
      (not_mem_of_digits _ (padLeft_all_digits _ _) ':' (by decide))
      (not_mem_of_digits _ (padLeft_all_digits _ _) ':' (by decide))]
  exact pyIntList?_three _ _ _ _ _ _
    (by rw [pyInt?_padLeft, Int.toNat_of_nonneg hy])
    (by rw [pyInt?_padLeft, Int.toNat_of_nonneg hmo])
    (by rw [pyInt?_padLeft, Int.toNat_of_nonneg hda])

theorem timeToken_parse (d : DateTime) (hh : 0 ≤ d.hour) (hmi : 0 ≤ d.minute)
    (hs : 0 ≤ d.second) :
    pyIntList? (splitOnChar ':' (timeToken d)) =
      some [d.hour, d.minute, d.second] := by
  rw [timeToken, pad2, pad2, pad2,
    splitOnChar_three ':' _ _ _
      (not_mem_of_digits _ (padLeft_all_digits _ _) ':' (by decide))
      (not_mem_of_digits _ (padLeft_all_digits _ _) ':' (by decide))
      (not_mem_of_digits _ (padLeft_all_digits _ _) ':' (by decide))]
  exact pyIntList?_three _ _ _ _ _ _
    (by rw [pyInt?_padLeft, Int.toNat_of_nonneg hh])
    (by rw [pyInt?_padLeft, Int.toNat_of_nonneg hmi])
    (by rw [pyInt?_padLeft, Int.toNat_of_nonneg hs])

theorem dateToken_no_space (d : DateTime) :
    ∀ c ∈ dateToken d, pyIsSpace c = false := by
  intro c hc
  rw [dateToken] at hc
  rcases List.mem_append.mp hc with h | h
  · exact pyIsDigit_not_space c (padLeft_all_digits _ _ c h)
  · rcases List.mem_cons.mp h with rfl | h
    · decide
    · rcases List.mem_append.mp h with h | h
      · exact pyIsDigit_not_space c (padLeft_all_digits _ _ c h)
      · rcases List.mem_cons.mp h with rfl | h
        · decide
        · exact pyIsDigit_not_space c (padLeft_all_digits _ _ c h)

theorem timeToken_no_space (d : DateTime) :
    ∀ c ∈ timeToken d, pyIsSpace c = false := by
  intro c hc
  rw [timeToken] at hc
  rcases List.mem_append.mp hc with h | h
  · exact pyIsDigit_not_space c (padLeft_all_digits _ _ c h)
  · rcases List.mem_cons.mp h with rfl | h
    · decide
    · rcases List.mem_append.mp h with h | h
      · exact pyIsDigit_not_space c (padLeft_all_digits _ _ c h)
      · rcases List.mem_cons.mp h with rfl | h
        · decide
        · exact pyIsDigit_not_space c (padLeft_all_digits _ _ c h)

theorem dateToken_ne_nil (d : DateTime) : dateToken d ≠ [] := by
  rw [dateToken]
  intro hc
  rcases List.append_eq_nil.mp hc with ⟨h1, -⟩
  exact padLeft_ne_nil _ _ h1

theorem timeToken_ne_nil (d : DateTime) : timeToken d ≠ [] := by
  rw [timeToken]
  intro hc
  rcases List.append_eq_nil.mp hc with ⟨h1, -⟩
  exact padLeft_ne_nil _ _ h1

theorem pySplitWS_strftime (d : DateTime) :
    pySplitWS (strftimeYmdHMS d) = [dateToken d, timeToken d] := by
  rw [strftime_split]
  exact pySplitWS_pair _ _ (dateToken_no_space d) (timeToken_no_space d)
    (dateToken_ne_nil d) (timeToken_ne_nil d)

/-- Core of the C2 round trip: decoding the rendered value with the
embedded-metadata codec recovers the original value. -/
theorem metadates_strftime (d : DateTime) (hv : d.valid = true)
    (hm : d.microsecond = 0) :
    _metadates (pySplitWS (strftimeYmdHMS d)) = Except.ok d := by
  obtain ⟨hy, hmo, hda, hh, hmi, hs⟩ := valid_nonneg d hv
  rw [pySplitWS_strftime]
  simp only [_metadates, dateToken_parse d hy hmo hda,
    timeToken_parse d hh hmi hs]
  rw [dif_pos (by simp)]
  simp only [List.getElem_cons_zero, List.getElem_cons_succ]
  rw [mkDateTime_self d hv hm]

/-- The `datetime` constructor model fails only with `ValueError` or
`OverflowError`. -/
theorem mkDateTime_error (y mo da h mi s : Int) (e : PyErr)
    (hmk : mkDateTime y mo da h mi s = Except.error e) :
    e = PyErr.valueError ∨ e = PyErr.overflowError := by
  unfold mkDateTime at hmk
  split at hmk
  · split at hmk
    · cases hmk
    · exact Or.inl (Except.error.inj hmk).symm
  · exact Or.inr (Except.error.inj hmk).symm

/-- The only exceptions `_metadates` can raise are `IndexError` (arity)
and `OverflowError` (a component beyond the C-int range of the `datetime`
constructor): every `ValueError` inside it is caught by its
`except ValueError` clause. -/
theorem metadates_error_cases (values : List Str) (e : PyErr)
    (h : _metadates values = Except.error e) :
    e = PyErr.indexError ∨ e = PyErr.overflowError := by
  rcases values with _ | ⟨v0, rest0⟩
  · exact Or.inl (Except.error.inj h).symm
  · rcases h0 : pyIntList? (splitOnChar ':' v0) with _ | ymd
    · simp [_metadates, h0] at h
    · rcases rest0 with _ | ⟨v1, rest⟩
      · simp only [_metadates, h0] at h
        exact Or.inl (Except.error.inj h).symm
      · rcases h1 : pyIntList? (splitOnChar ':' v1) with _ | hms
        · simp [_metadates, h0, h1] at h
        · by_cases h3 : 3 ≤ ymd.length ∧ 3 ≤ hms.length
          · simp only [_metadates, h0, h1] at h
            rw [dif_pos h3] at h
            cases hmk : mkDateTime ymd[0] ymd[1] ymd[2]
                hms[0] hms[1] hms[2] with
            | ok d =>
              rw [hmk] at h
              simp at h
            | error e1 =>
              rw [hmk] at h
              rcases mkDateTime_error _ _ _ _ _ _ _ hmk with rfl | rfl
              · simp at h
              · right
                simp at h
                exact h.symm
          · simp only [_metadates, h0, h1] at h
            rw [dif_neg h3] at h
            exact Or.inl (Except.error.inj h).symm

/-- An absent Exif original-date tag makes the check return false. -/
theorem has_exif_original_date_absent (st : KernelState)
    (h : pyDictGet st.metadata Keywords_Exif_datetime_original = none) :
    has_exif_original_date st = Except.ok false := by
  unfold has_exif_original_date
  rw [h]
  rfl

/-- A present Exif original-date tag is classified by the `try/except`
around the getter. -/
theorem has_exif_original_date_present (st : KernelState) (v : Str)
    (h : pyDictGet st.metadata Keywords_Exif_datetime_original = some v) :
    has_exif_original_date st = hasResult (_metadates (pySplitWS v)) := by
  unfold has_exif_original_date get_exif_original_date hasResult
  rw [h]
  cases hm : _metadates (pySplitWS v) with
  | ok d => simp [hm]
  | error e1 => cases e1 <;> simp [hm]

/-- The only exception `has_exif_original_date` can raise is
`OverflowError`. -/
theorem has_exif_original_date_error (st : KernelState) (e : PyErr)
    (h : has_exif_original_date st = Except.error e) :
    e = PyErr.overflowError := by
  cases hd : pyDictGet st.metadata Keywords_Exif_datetime_original with
  | none =>
    rw [has_exif_original_date_absent st hd] at h
    exact absurd h (by simp)
  | some v =>
    rw [has_exif_original_date_present st v hd] at h
    cases hm : _metadates (pySplitWS v) with
    | ok d =>
      rw [hm] at h
      exact absurd h (by simp [hasResult])
    | error e1 =>
      rw [hm] at h
      rcases metadates_error_cases _ _ hm with rfl | rfl
      · exact absurd h (by simp [hasResult])
      · simp only [hasResult] at h
        exact (Except.error.inj h).symm

/-- An absent Exif modify-date tag makes the check return false. -/
theorem has_exif_modify_date_absent (st : KernelState)
    (h : pyDictGet st.metadata Keywords_Exif_modify_date = none) :
    has_exif_modify_date st = Except.ok false := by
  unfold has_exif_modify_date
  rw [h]
  rfl

/-- A present Exif modify-date tag is classified by the `try/except`
around the getter. -/
theorem has_exif_modify_date_present (st : KernelState) (v : Str)
    (h : pyDictGet st.metadata Keywords_Exif_modify_date = some v) :
    has_exif_modify_date st = hasResult (_metadates (pySplitWS v)) := by
  unfold has_exif_modify_date get_exif_modify_date hasResult
  rw [h]
  cases hm : _metadates (pySplitWS v) with
  | ok d => simp [hm]
  | error e1 => cases e1 <;> simp [hm]

/-- The only exception `has_exif_modify_date` can raise is
`OverflowError`. -/
theorem has_exif_modify_date_error (st : KernelState) (e : PyErr)
    (h : has_exif_modify_date st = Except.error e) :
    e = PyErr.overflowError := by
  cases hd : pyDictGet st.metadata Keywords_Exif_modify_date with
  | none =>
    rw [has_exif_modify_date_absent st hd] at h
    exact absurd h (by simp)
  | some v =>
    rw [has_exif_modify_date_present st v hd] at h
    cases hm : _metadates (pySplitWS v) with
    | ok d =>
      rw [hm] at h
      exact absurd h (by simp [hasResult])
    | error e1 =>
      rw [hm] at h
      rcases metadates_error_cases _ _ hm with rfl | rfl
      · exact absurd h (by simp [hasResult])
      · simp only [hasResult] at h
        exact (Except.error.inj h).symm

/-- An absent QuickTime create-date tag makes the check return false. -/
theorem has_mov_create_date_absent (st : KernelState)
    (h : pyDictGet st.metadata Keywords_QuickTime_create_date = none) :
    has_mov_create_date st = Except.ok false := by
  unfold has_mov_create_date
  rw [h]
  rfl

/-- A present QuickTime create-date tag is classified by the `try/except`
around the getter. -/
theorem has_mov_create_date_present (st : KernelState) (v : Str)
    (h : pyDictGet st.metadata Keywords_QuickTime_create_date = some v) :
    has_mov_create_date st = hasResult (_metadates (pySplitWS v)) := by
  unfold has_mov_create_date get_mov_create_date hasResult
  rw [h]
  cases hm : _metadates (pySplitWS v) with
  | ok d => simp [hm]
  | error e1 => cases e1 <;> simp [hm]

/-- The only exception `has_mov_create_date` can raise is
`OverflowError`. -/
theorem has_mov_create_date_error (st : KernelState) (e : PyErr)
    (h : has_mov_create_date st = Except.error e) :
    e = PyErr.overflowError := by
  cases hd : pyDictGet st.metadata Keywords_QuickTime_create_date with
  | none =>
    rw [has_mov_create_date_absent st hd] at h
    exact absurd h (by simp)
  | some v =>
    rw [has_mov_create_date_present st v hd] at h
    cases hm : _metadates (pySplitWS v) with
    | ok d =>
      rw [hm] at h
      exact absurd h (by simp [hasResult])
    | error e1 =>
      rw [hm] at h
      rcases metadates_error_cases _ _ hm with rfl | rfl
      · exact absurd h (by simp [hasResult])
      · simp only [hasResult] at h
        exact (Except.error.inj h).symm

theorem timeToken_mem (d : DateTime) :
    ∀ c ∈ timeToken d, pyIsDigit c = true ∨ c = ':' := by
  intro c hc
  rw [timeToken] at hc
  rcases List.mem_append.mp hc with h | h
  · exact Or.inl (padLeft_all_digits _ _ c h)
  · rcases List.mem_cons.mp h with rfl | h
    · exact Or.inr rfl
    · rcases List.mem_append.mp h with h | h
      · exact Or.inl (padLeft_all_digits _ _ c h)
      · rcases List.mem_cons.mp h with rfl | h
        · exact Or.inr rfl
        · exact Or.inl (padLeft_all_digits _ _ c h)

theorem offsetToken_mem (zh zm : Int) :
    ∀ c ∈ offsetToken zh zm, pyIsDigit c = true ∨ c = ':' := by
  intro c hc
  rw [offsetToken] at hc
  rcases List.mem_append.mp hc with h | h
  · exact Or.inl (padLeft_all_digits _ _ c h)
  · rcases List.mem_cons.mp h with rfl | h
    · exact Or.inr rfl
    · exact Or.inl (padLeft_all_digits _ _ c h)

theorem no_plus_of_digit_colon (s : Str)
    (h : ∀ c ∈ s, pyIsDigit c = true ∨ c = ':') : '+' ∉ s := by
  intro hm
  rcases h _ hm with hd | hc
  · revert hd; decide
  · cases hc

theorem offsetToken_split (zh zm : Int) :
    splitOnChar ':' (offsetToken zh zm) = [pad2 zh, pad2 zm] := by
  rw [offsetToken, pad2, pad2, splitOnChar_pair ':' _ _
    (not_mem_of_digits _ (padLeft_all_digits _ _) ':' (by decide))
    (not_mem_of_digits _ (padLeft_all_digits _ _) ':' (by decide))]

/-- Positive case of the filesystem-date codec: a well-formed value with a
`+ZH:ZM` suffix decodes to the date with that offset applied. -/
theorem filedates_tokens (d : DateTime) (zh zm : Int) (hv : d.valid = true)
    (hm : d.microsecond = 0) (hzh : 0 ≤ zh) (hzm : 0 ≤ zm)
    (hb : 60 * zh + zm < 1440) :
    _filedates [dateToken d, timeToken d ++ '+' :: offsetToken zh zm] =
      Except.ok ⟨d, 60 * zh + zm⟩ := by
  obtain ⟨hy, hmo, hda, hh, hmi, hs⟩ := valid_nonneg d hv
  have hplus : splitOnChar '+' (timeToken d ++ '+' :: offsetToken zh zm) =
      [timeToken d, offsetToken zh zm] :=
    splitOnChar_pair '+' _ _
      (no_plus_of_digit_colon _ (timeToken_mem d))
      (no_plus_of_digit_colon _ (offsetToken_mem zh zm))
  have hf : Int.fdiv (60 * zh + zm) 1440 = 0 := by
    rw [Int.fdiv_eq_ediv _ (by decide)]
    omega
  simp only [_filedates, dateToken_parse d hy hmo hda, hplus,
    List.headD_cons, timeToken_parse d hh hmi hs, offsetToken_split,
    List.getElem?_cons_succ, List.getElem?_cons_zero,
    pyInt?_pad2 zh hzh, pyInt?_pad2 zm hzm]
  rw [dif_pos (by simp)]
  rw [if_pos (by rw [hf]; exact ⟨by decide, by decide⟩)]
  rw [if_pos ⟨by omega, hb⟩]
  simp only [List.getElem_cons_zero, List.getElem_cons_succ]
  rw [mkDateTime_self d hv hm]

/-- Without a `'+'` in the time token the filesystem-date codec always
raises (either the `int(...)` conversions or the `[1]` index fail). -/
theorem filedates_no_plus (v0 v1 : Str) (rest : List Str) (h : '+' ∉ v1) :
    ∃ e, _filedates (v0 :: v1 :: rest) = Except.error e := by
  simp only [_filedates, splitOnChar_no_sep '+' v1 h, List.headD_cons]
  cases h0 : pyIntList? (splitOnChar ':' v0) with
  | none => exact ⟨PyErr.valueError, by simp [h0]⟩
  | some ymd =>
    cases h1 : pyIntList? (splitOnChar ':' v1) with
    | none => exact ⟨PyErr.valueError, by simp [h0, h1]⟩
    | some hms => exact ⟨PyErr.indexError, by simp [h0, h1]⟩

/-- A one-token list reaches `values[1]` only after the first `int`
comprehension ran: a failing date parse is a `ValueError`, a succeeding
one an `IndexError`. -/
theorem filedates_single (v0 : Str) :
    _filedates [v0] =
      if pyIntList? (splitOnChar ':' v0) = none then
        Except.error PyErr.valueError
      else Except.error PyErr.indexError := by
  cases h0 : pyIntList? (splitOnChar ':' v0) with
  | none => simp [_filedates, h0]
  | some ymd => simp [_filedates, h0]

/-- On a loaded session `has_readable_metadate` is the membership test of
the uppercased extension in the readable formats. -/
theorem has_readable_metadate_eq (st : KernelState) (p : PyPath)
    (hfp : st.filepath = some p) :
    has_readable_metadate st =
      Except.ok (decide (file_extension p ∈ fast_readable_formats)) := by
  unfold has_readable_metadate
  rw [hfp]

/-- On a loaded session the only exception the dispatcher-level date
check can raise is the `OverflowError` propagated from a `has_*` check. -/
theorem has_metadata_date_original_error (st : KernelState) (p : PyPath)
    (hfp : st.filepath = some p) (e : PyErr)
    (h : has_metadata_date_original st = Except.error e) :
    e = PyErr.overflowError := by
  unfold has_metadata_date_original at h
  rw [has_readable_metadate_eq st p hfp] at h
  cases hd : decide (file_extension p ∈ fast_readable_formats) with
  | false =>
    rw [hd] at h
    simp at h
  | true =>
    rw [hd] at h
    cases hx : has_exif_original_date st with
    | error e1 =>
      rw [hx] at h
      simp at h
      subst h
      exact has_exif_original_date_error st _ hx
    | ok b =>
      cases b with
      | true =>
        rw [hx] at h
        simp at h
      | false =>
        rw [hx] at h
        cases hm : has_mov_create_date st with
        | error e2 =>
          rw [hm] at h
          simp at h
          subst h
          exact has_mov_create_date_error st _ hm
        | ok b2 =>
          rw [hm] at h
          simp at h


/-- C1: whenever `save_file` reaches execution of the external tool (a
file is loaded and the queued commands are not the two-token baseline),
exactly one invocation runs and the returned boolean is true iff the
tool's raw stdout contains neither `"unchanged"` nor `"errors"`. -/
theorem c1_save_success_iff_clean_output (env : ExtEnv) (st : KernelState)
    (out : Str) (ow : Bool) (p : PyPath) (hfp : st.filepath = some p)
    (hlen : st.commands.length ≠ 2) :
    ∃ args, (save_file env st out ow).2.2.execs = [args] ∧
      (save_file env st out ow).1 =
        (!pyIn (strL "unchanged") (env.exec args) &&
         !pyIn (strL "errors") (env.exec args)) := by
  simp only [save_file, hfp]
  rw [if_neg hlen]
  by_cases hname : out = [] ∨ out = p.name
  · rw [if_pos hname]
    cases ow with
    | false => exact ⟨_, rfl, rfl⟩
    | true => exact ⟨_, rfl, rfl⟩
  · rw [if_neg hname]
    exact ⟨_, rfl, rfl⟩

/-- C1 witness: a loaded session with one queued edit, under the quiet
test oracle. -/
theorem c1_witness :
    ∃ args, (save_file testEnv stReady [] false).2.2.execs = [args] ∧
      (save_file testEnv stReady [] false).1 =
        (!pyIn (strL "unchanged") (testEnv.exec args) &&
         !pyIn (strL "errors") (testEnv.exec args)) :=
  c1_save_success_iff_clean_output testEnv stReady [] false p0 rfl
    (by decide)

/-- C2: serializing a valid timezone-naive date with zero microseconds via
the write-serializer yields `-tag=` followed by a value which the
embedded-metadata codec decodes back to the original value. -/
theorem c2_write_read_roundtrip (d : DateTime) (kwrd : Str)
    (hv : d.valid = true) (hm : d.microsecond = 0) :
    ∃ v, _setmetadates kwrd d = '-' :: (kwrd ++ '=' :: v) ∧
      _metadates (pySplitWS v) = Except.ok d :=
  ⟨strftimeYmdHMS d, rfl, metadates_strftime d hv hm⟩

/-- C2 witness: the round trip at 2021-05-10 14:30:00 under the Exif
original-date tag. -/
theorem c2_witness :
    ∃ v, _setmetadates Keywords_Exif_datetime_original d0 =
        '-' :: (Keywords_Exif_datetime_original ++ '=' :: v) ∧
      _metadates (pySplitWS v) = Except.ok d0 :=
  c2_write_read_roundtrip d0 Keywords_Exif_datetime_original (by decide) rfl

/-- C3 counterexample: on a date token with too few components (numeric
but only two fields) the codec raises `IndexError` instead of returning
the sentinel, because only `ValueError` is caught. -/
theorem c3_cex_arity_raises :
    _metadates [strL "2020:01", strL "00:00:00"] =
      Except.error PyErr.indexError := by decide

/-- C3 (amended): non-numeric tokens and invalid calendar dates make the
embedded-metadata codec return the sentinel minimum date without raising
— the date token's ints are parsed before `values[1]` is touched, so even
a one-token non-numeric input sentinels; but an input with too few date
or time components (once the `int` parses reach them) raises an uncaught
`IndexError`, a component beyond the C-int range of the `datetime`
constructor raises an uncaught `OverflowError`, and those two are the
only exceptions that can escape (the `has_*` callers, not the codec,
catch the `IndexError`). -/
theorem c3_metadates_failure_modes :
    (∀ v0 : Str, ∀ rest : List Str,
      pyIntList? (splitOnChar ':' v0) = none →
      _metadates (v0 :: rest) = Except.ok sentinelDate) ∧
    (∀ v0 v1 : Str, ∀ rest : List Str, ∀ ymd : List Int,
      pyIntList? (splitOnChar ':' v0) = some ymd →
      pyIntList? (splitOnChar ':' v1) = none →
      _metadates (v0 :: v1 :: rest) = Except.ok sentinelDate) ∧
    (∀ v0 v1 : Str, ∀ rest : List Str, ∀ y1 y2 y3 t1 t2 t3 : Int,
      ∀ yr tr : List Int,
      pyIntList? (splitOnChar ':' v0) = some (y1 :: y2 :: y3 :: yr) →
      pyIntList? (splitOnChar ':' v1) = some (t1 :: t2 :: t3 :: tr) →
      mkDateTime y1 y2 y3 t1 t2 t3 = Except.error PyErr.valueError →
      _metadates (v0 :: v1 :: rest) = Except.ok sentinelDate) ∧
    (∀ v0 v1 : Str, ∀ rest : List Str, ∀ y1 y2 y3 t1 t2 t3 : Int,
      ∀ yr tr : List Int,
      pyIntList? (splitOnChar ':' v0) = some (y1 :: y2 :: y3 :: yr) →
      pyIntList? (splitOnChar ':' v1) = some (t1 :: t2 :: t3 :: tr) →
      mkDateTime y1 y2 y3 t1 t2 t3 = Except.error PyErr.overflowError →
      _metadates (v0 :: v1 :: rest) = Except.error PyErr.overflowError) ∧
    (∀ v0 v1 : Str, ∀ rest : List Str, ∀ ymd hms : List Int,
      pyIntList? (splitOnChar ':' v0) = some ymd →
      pyIntList? (splitOnChar ':' v1) = some hms →
      (ymd.length < 3 ∨ hms.length < 3) →
      _metadates (v0 :: v1 :: rest) = Except.error PyErr.indexError) ∧
    (∀ values : List Str, ∀ e : PyErr,
      _metadates values = Except.error e →
      e = PyErr.indexError ∨ e = PyErr.overflowError) := by
  refine ⟨?_, ?_, ?_, ?_, ?_, metadates_error_cases⟩
  · intro v0 rest h0
    simp [_metadates, h0]
  · intro v0 v1 rest ymd h0 h1
    simp [_metadates, h0, h1]
  · intro v0 v1 rest y1 y2 y3 t1 t2 t3 yr tr h0 h1 hmk
    simp only [_metadates, h0, h1]
    rw [dif_pos (by constructor <;> simp)]
    simp only [List.getElem_cons_zero, List.getElem_cons_succ]
    rw [hmk]
  · intro v0 v1 rest y1 y2 y3 t1 t2 t3 yr tr h0 h1 hmk
    simp only [_metadates, h0, h1]
    rw [dif_pos (by constructor <;> simp)]
    simp only [List.getElem_cons_zero, List.getElem_cons_succ]
    rw [hmk]
  · intro v0 v1 rest ymd hms h0 h1 hlt
    simp only [_metadates, h0, h1]
    rw [dif_neg (by omega)]

/-- C3 witness: the spec's own garbage example decodes to the sentinel,
as does a non-numeric one-token input (whose date parse fails before
`values[1]` is indexed). -/
theorem c3_witness :
    _metadates [strL "not:a:date", strL "garbage"] =
        Except.ok sentinelDate ∧
    _metadates [strL "garbage"] = Except.ok sentinelDate := by
  constructor
  · exact c3_metadates_failure_modes.1 (strL "not:a:date")
      [strL "garbage"] (by decide)
  · exact c3_metadates_failure_modes.1 (strL "garbage") [] (by decide)

/-- C4 counterexample: immediately after a FAILED load (tool output lacks
the version marker, so `_commands == []` escapes the `len == 2` check)
with no `set_*` calls, `save_file` nevertheless executes the external tool
— and with empty stdout even reports success. -/
theorem c4_cex_save_after_failed_load :
    (save_file testEnv (load_file testEnv st0 p0) [] false).1 = true ∧
    (save_file testEnv (load_file testEnv st0 p0) [] false).2.2.execs ≠
      [] := by
  constructor
  · decide
  · decide

/-- C4 (amended): `save_file` returns false, runs nothing and changes no
state whenever no file is loaded, or whenever the pending commands are
exactly the two-token baseline of a successful load with no queued edits
— but after a FAILED load the empty command list slips past the check and
the tool is executed. -/
theorem c4_save_preconditions (env : ExtEnv) (st : KernelState) (out : Str)
    (ow : Bool) (h : st.filepath = none ∨ st.commands.length = 2) :
    save_file env st out ow = (false, st, ⟨[], []⟩) := by
  rcases h with h | h
  · simp only [save_file, h]
  · cases hfp : st.filepath with
    | none => simp only [save_file, hfp]
    | some p =>
      simp only [save_file, hfp]
      rw [if_pos h]

/-- C4 witness: save with no file loaded fails and does nothing. -/
theorem c4_witness :
    save_file testEnv st0 [] false = (false, st0, ⟨[], []⟩) :=
  c4_save_preconditions testEnv st0 [] false (Or.inl rfl)

/-- C5 counterexample: the Exif original-date tag is present with a value
the codec cannot parse (it decodes to the sentinel via a caught
`ValueError`), yet `has_exif_original_date` reports `True`, not false. -/
theorem c5_cex_unparsable_is_true :
    pyDictGet stGarbage.metadata Keywords_Exif_datetime_original =
      some (strL "a:b:c d:e:f") ∧
    _metadates (pySplitWS (strL "a:b:c d:e:f")) = Except.ok sentinelDate ∧
    has_exif_original_date stGarbage = Except.ok true := by
  refine ⟨by decide, by decide, by decide⟩

/-- C5 (amended): each `has_*` check (`has_exif_original_date`,
`has_exif_modify_date`, `has_mov_create_date`) returns false for an
absent tag; a present tag is classified by the `try/except` around the
getter — sentinel decodes (caught `ValueError`s) yield true, an arity
`IndexError` yields false — and the only exception that can escape a
`has_*` check, or the dispatcher check `has_metadata_date_original` on a
loaded session, is the CPython `OverflowError` for a component beyond the
`datetime` constructor's C-int range. -/
theorem c5_has_checks_total (st : KernelState) :
    (pyDictGet st.metadata Keywords_Exif_datetime_original = none →
      has_exif_original_date st = Except.ok false) ∧
    (∀ v : Str,
      pyDictGet st.metadata Keywords_Exif_datetime_original = some v →
      has_exif_original_date st = hasResult (_metadates (pySplitWS v))) ∧
    (∀ e : PyErr, has_exif_original_date st = Except.error e →
      e = PyErr.overflowError) ∧
    (pyDictGet st.metadata Keywords_Exif_modify_date = none →
      has_exif_modify_date st = Except.ok false) ∧
    (∀ v : Str,
      pyDictGet st.metadata Keywords_Exif_modify_date = some v →
      has_exif_modify_date st = hasResult (_metadates (pySplitWS v))) ∧
    (∀ e : PyErr, has_exif_modify_date st = Except.error e →
      e = PyErr.overflowError) ∧
    (pyDictGet st.metadata Keywords_QuickTime_create_date = none →
      has_mov_create_date st = Except.ok false) ∧
    (∀ v : Str,
      pyDictGet st.metadata Keywords_QuickTime_create_date = some v →
      has_mov_create_date st = hasResult (_metadates (pySplitWS v))) ∧
    (∀ e : PyErr, has_mov_create_date st = Except.error e →
      e = PyErr.overflowError) ∧
    (∀ p : PyPath, st.filepath = some p → ∀ e : PyErr,
      has_metadata_date_original st = Except.error e →
      e = PyErr.overflowError) :=
  ⟨fun h => has_exif_original_date_absent st h,
   fun v h => has_exif_original_date_present st v h,
   fun e h => has_exif_original_date_error st e h,
   fun h => has_exif_modify_date_absent st h,
   fun v h => has_exif_modify_date_present st v h,
   fun e h => has_exif_modify_date_error st e h,
   fun h => has_mov_create_date_absent st h,
   fun v h => has_mov_create_date_present st v h,
   fun e h => has_mov_create_date_error st e h,
   fun p hfp e h => has_metadata_date_original_error st p hfp e h⟩

/-- C5 witness: absent tag yields false, and a present well-formed value
is classified by the getter's outcome. -/
theorem c5_witness :
    has_exif_original_date st0 = Except.ok false ∧
    has_mov_create_date stMovOnly =
      hasResult (_metadates (pySplitWS (strL "2020:01:01 00:00:00"))) := by
  constructor
  · exact (c5_has_checks_total st0).1 rfl
  · exact (c5_has_checks_total stMovOnly).2.2.2.2.2.2.2.1
      (strL "2020:01:01 00:00:00") (by decide)

/-- C6: `set_date_original` dispatches purely on the loaded file's
uppercased extension: an Exif-group extension queues the
`EXIF:DateTimeOriginal` token, a QuickTime-group extension queues the
`QuickTime:CreateDate` token, and any other extension is a fatal
assertion with nothing queued. -/
theorem c6_set_date_original_dispatch (st : KernelState) (p : PyPath)
    (d : DateTime) (hfp : st.filepath = some p) :
    (file_extension p ∈ Keywords_Exif.extensions →
      set_date_original st d = Except.ok { st with commands :=
        st.commands ++
          [_setmetadates Keywords_Exif_datetime_original d] }) ∧
    (file_extension p ∉ Keywords_Exif.extensions →
      file_extension p ∈ Keywords_QuickTime.extensions →
      set_date_original st d = Except.ok { st with commands :=
        st.commands ++
          [_setmetadates Keywords_QuickTime_create_date d] }) ∧
    (file_extension p ∉ Keywords_Exif.extensions →
      file_extension p ∉ Keywords_QuickTime.extensions →
      set_date_original st d = Except.error PyErr.assertionError) := by
  refine ⟨fun h1 => ?_, fun h1 h2 => ?_, fun h1 h2 => ?_⟩ <;>
    simp only [set_date_original, hfp]
  · rw [if_pos h1]
    simp [set_exif_original_date, hfp]
  · rw [if_neg h1, if_pos h2]
    simp [set_mov_create_date, hfp]
  · rw [if_neg h1, if_neg h2]

/-- C6 witness: a `.jpg` file queues the Exif token. -/
theorem c6_witness :
    set_date_original stReady d0 = Except.ok { stReady with commands :=
      stReady.commands ++
        [_setmetadates Keywords_Exif_datetime_original d0] } :=
  (c6_set_date_original_dispatch stReady p0 d0 rfl).1 (by decide)

/-- C7: `get_date_original` tries the Exif getter before the QuickTime
getter and returns the first group whose `has_*` check holds; when
neither holds it fails with the fatal assertion. -/
theorem c7_get_date_original_order (st : KernelState) :
    (has_exif_original_date st = Except.ok true →
      get_date_original st = get_exif_original_date st) ∧
    (has_exif_original_date st = Except.ok false →
      has_mov_create_date st = Except.ok true →
      get_date_original st = get_mov_create_date st) ∧
    (has_exif_original_date st = Except.ok false →
      has_mov_create_date st = Except.ok false →
      get_date_original st = Except.error PyErr.assertionError) := by
  refine ⟨fun h1 => ?_, fun h1 h2 => ?_, fun h1 h2 => ?_⟩
  · simp [get_date_original, h1]
  · simp [get_date_original, h1, h2]
  · simp [get_date_original, h1, h2]

/-- C7 witness: the spec scenario — a MOV session with only
`QuickTime:CreateDate` skips the Exif group and returns the QuickTime
value. -/
theorem c7_witness :
    get_date_original stMovOnly = Except.ok ⟨2020, 1, 1, 0, 0, 0, 0⟩ := by
  have h := (c7_get_date_original_order stMovOnly).2.1 (by decide) (by decide)
  exact h.trans (by decide)

/-- Every branch of `save_file` only ever appends to the pending
commands: the queued tokens are never cleared. -/
theorem save_file_appends (env : ExtEnv) (st : KernelState) (out : Str)
    (ow : Bool) :
    ∃ tl : List Str,
      (save_file env st out ow).2.1.commands = st.commands ++ tl := by
  cases hfp : st.filepath with
  | none =>
    refine ⟨[], ?_⟩
    simp [save_file, hfp]
  | some p =>
    simp only [save_file, hfp]
    by_cases hlen : st.commands.length = 2
    · rw [if_pos hlen]
      exact ⟨[], by simp⟩
    · rw [if_neg hlen]
      by_cases hname : out = [] ∨ out = p.name
      · rw [if_pos hname]
        cases ow with
        | false => exact ⟨_, rfl⟩
        | true => exact ⟨_, rfl⟩
      · rw [if_neg hname]
        exact ⟨_, rfl⟩

/-- C8 counterexample: after a successful load, one queued edit and a
completed same-name overwrite save, the edit token is still in the
pending commands — save appends the target tokens but never clears the
list. -/
theorem c8_cex_save_does_not_clear :
    (save_file testEnvLoaded
        (set_exif_original_date (load_file testEnvLoaded st0 p0) d0)
        [] true).2.1.commands =
      [strL "exiftool", strL "-P",
       _setmetadates Keywords_Exif_datetime_original d0,
       pyPathStr p0] := by decide

/-- C8 (amended): the pending commands are reset to the two-token
baseline `[toolPath, "-P"]` on successful load and appended to by each
`set_*` call; `save_file` appends the target/path tokens and executes
them but does not clear the list, so previously queued edit tokens remain
pending after the call. -/
theorem c8_pending_commands_lifecycle (env : ExtEnv) (st : KernelState)
    (p : PyPath) (d : DateTime) (out : Str) (ow : Bool) :
    (pyIn Keywords_tool_version
        (env.exec [st.exiftool_path, strL "-G", strL "-J", pyPathStr p]) =
          true →
      (load_file env st p).commands = [st.exiftool_path, strL "-P"]) ∧
    ((set_exif_original_date st d).commands =
      st.commands ++ [_setmetadates Keywords_Exif_datetime_original d]) ∧
    ((set_mov_create_date st d).commands =
      st.commands ++ [_setmetadates Keywords_QuickTime_create_date d]) ∧
    (∃ tl : List Str,
      (save_file env st out ow).2.1.commands = st.commands ++ tl) := by
  refine ⟨fun hmark => ?_, rfl, rfl, save_file_appends env st out ow⟩
  simp only [load_file]
  rw [if_pos hmark]

/-- C8 witness: a successful load under the marker-producing oracle
resets the commands to the baseline. -/
theorem c8_witness :
    (load_file testEnvLoaded st0 p0).commands =
      [st0.exiftool_path, strL "-P"] :=
  (c8_pending_commands_lifecycle testEnvLoaded st0 p0 d0 [] false).1
    (by decide)

/-- C9 counterexample: a `-HH:MM` UTC-offset suffix is NOT split off and
applied — `values[1].split("+")` finds no `'+'`, and `int("00-05")`
raises an uncaught `ValueError`. -/
theorem c9_cex_negative_offset_raises :
    _filedates [strL "2020:01:01", strL "12:30:00-05:00"] =
      Except.error PyErr.valueError := by decide

/-- C9 (amended): the filesystem-metadata codec splits a `+HH:MM` offset
suffix off the time token and applies it as an explicit timezone; it has
no sentinel fallback — a time token without `'+'` (including every
`-HH:MM` form) raises, an empty token list raises `IndexError`, and a
one-token list raises `ValueError` when its date parse fails (the first
`int` comprehension runs before `values[1]` is indexed) and `IndexError`
otherwise. -/
theorem c9_filedates_offset :
    (∀ (d : DateTime) (zh zm : Int), d.valid = true → d.microsecond = 0 →
      0 ≤ zh → 0 ≤ zm → 60 * zh + zm < 1440 →
      _filedates [dateToken d, timeToken d ++ '+' :: offsetToken zh zm] =
        Except.ok ⟨d, 60 * zh + zm⟩) ∧
    (∀ v0 v1 : Str, ∀ rest : List Str, '+' ∉ v1 →
      ∃ e, _filedates (v0 :: v1 :: rest) = Except.error e) ∧
    (_filedates [] = Except.error PyErr.indexError) ∧
    (∀ v0 : Str, _filedates [v0] =
      if pyIntList? (splitOnChar ':' v0) = none then
        Except.error PyErr.valueError
      else Except.error PyErr.indexError) :=
  ⟨filedates_tokens, filedates_no_plus, rfl, filedates_single⟩

/-- C9 witness: `+05:00` decodes to a 300-minute offset. -/
theorem c9_witness :
    _filedates [dateToken d0, timeToken d0 ++ '+' :: offsetToken 5 0] =
      Except.ok ⟨d0, 60 * 5 + 0⟩ :=
  c9_filedates_offset.1 d0 5 0 (by decide) rfl (by decide) (by decide)
    (by decide)

/-- C10: every group in the Keywords registry satisfies the declared
invariants — editable implies readable, and readable-or-editable implies
non-empty extensions except for the two pseudo-groups — and the pygroups
import-time autotest (whose failure would be a fatal startup error)
passes. -/
theorem c10_group_invariants :
    pygroups_autotest = true ∧
    ∀ G ∈ KeywordsMembers,
      (G.editable = true → G.readable = true) ∧
      ((G.readable = true ∨ G.editable = true) →
        G.extensions ≠ [] ∨ G.gname = "ExifTool" ∨ G.gname = "File") := by
  constructor
  · decide
  · decide

/-- C10 witness: the Exif group satisfies both invariants. -/
theorem c10_witness :
    (Keywords_Exif.editable = true → Keywords_Exif.readable = true) ∧
    ((Keywords_Exif.readable = true ∨ Keywords_Exif.editable = true) →
      Keywords_Exif.extensions ≠ [] ∨ Keywords_Exif.gname = "ExifTool" ∨
        Keywords_Exif.gname = "File") :=
  c10_group_invariants.2 Keywords_Exif (by decide)
